import Mathlib

/-!
# Verification of the oscmix GUI address-dispatch and state-reconciliation engine

Shallow embedding of the core state-handling logic of
`src/oscmix-gui/oscmix-gui-aware-smart.py` (with the helper conversions shared
verbatim by `archive/oscmix-gui.py` and the address-table construction shared
with `oscmix-gui-full.py`).

Modelling conventions:
* Python floats (dB values, meter levels) are modelled as exact rationals `ℚ`;
  Python ints as `ℤ`/`ℕ`.  Python `int(...)` truncation toward zero is `pyInt`.
* Qt widgets holding the last-known parameter values are the program's channel
  parameter store; a `QDoubleSpinBox.setValue`/`QSlider.setValue` clamps to the
  widget's configured range, which we model explicitly (`clampGain`, `clampVol`,
  `clampPan`).  Display-precision rounding (`setDecimals(1)`) is not modelled.
* `_populate_channel_tab` stores every channel-strip widget list under keys
  derived from `type_prefix.lower()` — the plural strings `"inputs"` /
  `"outputs"` (`storedTypeKey`) — while every consumer (`connect_signals` and
  the inbound `on_*_received` slots) looks lists up under the singular handler
  strings `"input"` / `"output"` (`handlerTypeKey`).  On the
  `defaultdict(list)` these lookups find nothing, so those consumers are
  no-ops; the key comparison is carried explicitly (`typeKeyMatches`) so the
  mismatch is visible in every definition it affects.  Only the mixer-tab
  widgets (consistent `mixer_*` keys, connected at creation) and the playback
  meter list (`"Playback".lower()` is already singular) are actually wired.
* A disabled Qt widget cannot be operated by the user, so the locally-initiated
  (outbound) operations `userSet...` fire only when the widget exists and is
  enabled; a slot that raises (`on_bool_received`) aborts without touching
  state, which the surrounding Qt event loop swallows.
* Python dicts keyed by channel index are association lists preserving
  insertion order (`assocSet` mirrors `d[k] = v`); `defaultdict` caches with a
  constant default are total functions.
-/

/-- Channel categories of the device (`channel_configs` keys
`"input"`, `"output"`, `"playback"`). -/
inductive ChannelType
  | input
  | output
  | playback
  deriving DecidableEq, Repr, Fintype

/-- Source side of a mix-matrix cell (`in_type` is `"input"` or `"playback"`). -/
inductive SourceType
  | input
  | playback
  deriving DecidableEq, Repr

/-- The boolean per-channel controls handled by `_handle_bool` /
`send_bool_from_gui` (`mute`, `phase`, `phantom` (48V), `hiz`, `eq_enable`,
`dyn_enable`, `lc_enable`). -/
inductive BoolControl
  | mute
  | phase
  | phantom
  | hiz
  | eq_enable
  | dyn_enable
  | lc_enable
  deriving DecidableEq, Repr, Fintype

/-- A per-channel control slot, as referenced by
`_update_linked_channel_state`: the gain/volume slider+spinbox pair, one of
the boolean checkboxes, or the stereo-link checkbox. -/
inductive ChannelControl
  | gainC
  | boolC (c : BoolControl)
  | linkC
  deriving DecidableEq, Repr

/-- `INPUT_CHANNEL_INFO` flag words (bit 0 = gain, bit 1 = reflevel,
bit 2 = 48V, bit 3 = Hi-Z): Mic/Line 1-2 = `1|4`, Inst/Line 3-4 = `1|2|8`,
Analog 5-8 = `1|2`, digital channels = `0`. -/
def INPUT_CHANNEL_FLAGS : List Nat :=
  [5, 5, 11, 11, 3, 3, 3, 3, 0, 0, 0, 0, 0, 0, 0, 0, 0, 0, 0, 0]

/-- `OUTPUT_CHANNEL_INFO` flag words (reflevel on the 8 analog outputs). -/
def OUTPUT_CHANNEL_FLAGS : List Nat :=
  [1, 1, 1, 1, 1, 1, 1, 1, 0, 0, 0, 0, 0, 0, 0, 0, 0, 0, 0, 0]

/-- `NUM_INPUT_CHANNELS = len(INPUT_CHANNEL_INFO)`. -/
def NUM_INPUT_CHANNELS : Nat := INPUT_CHANNEL_FLAGS.length

/-- `NUM_OUTPUT_CHANNELS = len(OUTPUT_CHANNEL_INFO)`. -/
def NUM_OUTPUT_CHANNELS : Nat := OUTPUT_CHANNEL_FLAGS.length

/-- `NUM_PLAYBACK_CHANNELS` (same count as outputs in the source). -/
def NUM_PLAYBACK_CHANNELS : Nat := NUM_OUTPUT_CHANNELS

/-- Channel count per channel type. -/
def numChannels : ChannelType → Nat
  | .input => NUM_INPUT_CHANNELS
  | .output => NUM_OUTPUT_CHANNELS
  | .playback => NUM_PLAYBACK_CHANNELS

/-- Channel count per mix-source type (`NUM_INPUT_CHANNELS` /
`NUM_PLAYBACK_CHANNELS`). -/
def numSourceChannels : SourceType → Nat
  | .input => NUM_INPUT_CHANNELS
  | .playback => NUM_PLAYBACK_CHANNELS

/-- `INPUT_GAIN_FLAG = 1 << 0`. -/
def INPUT_GAIN_FLAG : Nat := 1

/-- `INPUT_48V_FLAG = 1 << 2`. -/
def INPUT_48V_FLAG : Nat := 4

/-- `INPUT_HIZ_FLAG = 1 << 3`. -/
def INPUT_HIZ_FLAG : Nat := 8

/-- Flag word of input channel `i` (0-based). -/
def inputFlags (i : Nat) : Nat := INPUT_CHANNEL_FLAGS.getD i 0

/-- Python `int(...)` on a float: truncation toward zero. -/
def pyInt (q : ℚ) : ℤ := if q < 0 then ⌈q⌉ else ⌊q⌋

/-- `float_to_slider_linear`: clamp a 0.0-1.0 float to an integer slider
value 0-100 (used for meters). -/
def float_to_slider_linear (val : ℚ) : ℤ :=
  pyInt (max 0 (min 1 val) * 100)

/-- `input_gain_to_slider`: input gain float (0.0-75.0 dB) to slider
int (0-750). -/
def input_gain_to_slider (db_value : ℚ) : ℤ :=
  pyInt (max 0 (min 75 db_value) * 10)

/-- `slider_to_input_gain`: slider int (0-750) to input gain float. -/
def slider_to_input_gain (slider_value : ℤ) : ℚ :=
  (slider_value : ℚ) / 10

/-- `output_volume_to_slider`: output/mix volume float (-65.0 to 6.0 dB) to
slider int (-650 to 60). -/
def output_volume_to_slider (db_value : ℚ) : ℤ :=
  pyInt (max (-65) (min 6 db_value) * 10)

/-- `slider_to_output_volume`: slider int (-650 to 60) to volume float. -/
def slider_to_output_volume (slider_value : ℤ) : ℚ :=
  (slider_value : ℚ) / 10

theorem pyInt_intCast (v : ℤ) : pyInt (v : ℚ) = v := by
  unfold pyInt
  split
  · exact Int.ceil_intCast v
  · exact Int.floor_intCast v

/-- One cell of the mixer-send cache `current_mixer_sends[out][type][in]`:
a volume (dB) / pan pair. -/
structure MixCell where
  volume : ℚ
  pan : ℤ
  deriving DecidableEq, Repr

/-- Default cell of the `defaultdict`-backed cache:
`{'volume': -65.0, 'pan': 0}`. -/
def mixCellDefault : MixCell := ⟨-65, 0⟩

/-- Composite key of one mix-matrix cell: 0-based destination output index,
source type, 0-based source index. -/
structure MixSendKey where
  outIdx : Nat
  srcType : SourceType
  srcIdx : Nat
  deriving DecidableEq, Repr

/-- Outbound OSC messages emitted by the `send_*_from_gui` functions.
Channel numbers are 1-based on the wire (`ch_idx + 1`), exactly as the
Python formats them into the address constants. -/
inductive OscMessage
  | gainMsg (t : ChannelType) (chNum : Nat) (v : ℚ)
  | boolMsg (t : ChannelType) (c : BoolControl) (chNum : Nat) (v : ℤ)
  | stereoMsg (t : ChannelType) (chNum : Nat) (v : ℤ)
  | mixSetMsg (outNum : Nat) (s : SourceType) (inNum : Nat) (volume : ℚ) (pan : ℤ)
  | refreshMsg
  deriving DecidableEq, Repr

/-- Python dict assignment `d[i] = v` on an insertion-ordered association
list: overwrite in place if the key exists, else append. -/
def assocSet (l : List (Nat × ℚ)) (i : Nat) (v : ℚ) : List (Nat × ℚ) :=
  match l with
  | [] => [(i, v)]
  | (j, w) :: rest => if j = i then (i, v) :: rest else (j, w) :: assocSet rest i v

/-- Python dict lookup `d.get(i)` on an association list. -/
def assocLookup (l : List (Nat × ℚ)) (i : Nat) : Option ℚ :=
  match l with
  | [] => none
  | (j, w) :: rest => if j = i then some w else assocLookup rest i

/-- The GUI-side mutable state owned by `OscmixControlGUI`: the pending meter
cache `last_meter_values`, the mixer-send cache `current_mixer_sends`, and the
channel-parameter store held by the control widgets (spinbox values, checkbox
states, link checkboxes and each widget's enabled flag). -/
@[ext]
structure GuiState where
  lastMeterValues : ChannelType → List (Nat × ℚ)
  mixerSends : MixSendKey → MixCell
  gainValue : ChannelType → Nat → ℚ
  boolValue : ChannelType → BoolControl → Nat → Bool
  linkValue : ChannelType → Nat → Bool
  ctrlEnabled : ChannelType → ChannelControl → Nat → Bool

/-- Whether a gain/volume slider+spinbox pair is created for this channel
type (`add_controls` is true for Inputs and Outputs, false for Playback,
whose lists hold `None` placeholders). -/
def gainWidgetExists : ChannelType → Bool
  | .input => true
  | .output => true
  | .playback => false

/-- Whether a boolean checkbox is created (non-`None`) for this channel
type: inputs get all seven, outputs get all but 48V/Hi-Z, playback gets
only `None` placeholders. -/
def boolWidgetExists : ChannelType → BoolControl → Bool
  | .input, _ => true
  | .output, .phantom => false
  | .output, .hiz => false
  | .output, _ => true
  | .playback, _ => false

/-- Whether a stereo-link checkbox is created (non-`None`) for this channel
type. -/
def linkWidgetExists : ChannelType → Bool
  | .input => true
  | .output => true
  | .playback => false

/-- Whether `_update_linked_channel_state` would touch this control on the
paired channel: the gain pair and the seven boolean controls (the link
checkbox itself is not in its `bool_controls` list). -/
def ctrlUpdatable (t : ChannelType) : ChannelControl → Bool
  | .gainC => gainWidgetExists t
  | .boolC c => boolWidgetExists t c
  | .linkC => false

/-- Initial enabled flag of the gain controls, from `_populate_channel_tab`:
inputs enabled iff `INPUT_GAIN_FLAG` is set, outputs always enabled,
playback has no gain widget. -/
def initGainEnabled : ChannelType → Nat → Bool
  | .input, i => inputFlags i &&& INPUT_GAIN_FLAG != 0
  | .output, _ => true
  | .playback, _ => false

/-- Initial enabled flag of the boolean checkboxes: 48V/Hi-Z follow the
channel flags, the rest are enabled wherever the widget exists. -/
def initBoolEnabled (t : ChannelType) (c : BoolControl) (i : Nat) : Bool :=
  match t, c with
  | .input, .phantom => inputFlags i &&& INPUT_48V_FLAG != 0
  | .input, .hiz => inputFlags i &&& INPUT_HIZ_FLAG != 0
  | _, _ => boolWidgetExists t c

/-- Initial enabled flag of each control slot (nonexistent widgets count as
permanently disabled). -/
def initCtrlEnabled (t : ChannelType) : ChannelControl → Nat → Bool
  | .gainC, i => initGainEnabled t i
  | .boolC c, i => initBoolEnabled t c i
  | .linkC, _ => linkWidgetExists t

/-- The GUI state right after `__init__`: empty meter cache, mixer cache at
its defaultdict defaults, input gain spinboxes at 0.0, output volume
spinboxes at -65.0, all checkboxes unchecked, widgets enabled per flags. -/
def initialState : GuiState where
  lastMeterValues := fun _ => []
  mixerSends := fun _ => mixCellDefault
  gainValue := fun t _ => match t with
    | .input => 0
    | .output => -65
    | .playback => 0
  boolValue := fun _ _ _ => false
  linkValue := fun _ _ => false
  ctrlEnabled := fun t c i => initCtrlEnabled t c i

/-- Range of the gain/volume spinbox (`setRange(0.0, 75.0)` for inputs,
`setRange(-65.0, 6.0)` for outputs): `setValue` clamps to it. -/
def clampGain : ChannelType → ℚ → ℚ
  | .input, v => max 0 (min 75 v)
  | .output, v => max (-65) (min 6 v)
  | .playback, v => v

/-- Range of the mixer-send volume spinbox (`setRange(-65.0, 6.0)`). -/
def clampVol (v : ℚ) : ℚ := max (-65) (min 6 v)

/-- Range of the mixer-send pan spinbox (`setRange(-100, 100)`). -/
def clampPan (p : ℤ) : ℤ := max (-100) (min 100 p)

/-- `widget_type_key = type_prefix.lower()`: the key prefix under which
`_populate_channel_tab` stores the channel-strip widget lists
(`'inputs', 'outputs', 'playback'` — plural for inputs and outputs, because
the tab titles are "Inputs" and "Outputs"). -/
def storedTypeKey : ChannelType → String
  | .input => "inputs"
  | .output => "outputs"
  | .playback => "playback"

/-- The `channel_type` strings used by the OSC handler's mapped arguments
and by `connect_signals` when looking widget lists back up
(`"input"`, `"output"`, `"playback"` — singular). -/
def handlerTypeKey : ChannelType → String
  | .input => "input"
  | .output => "output"
  | .playback => "playback"

/-- Whether a consumer's `self.widgets.get(f"(handlerTypeKey)_...")` lookup
finds the list stored under `f"(storedTypeKey)_..."`: true only when the two
key prefixes coincide, i.e. only for playback. -/
def typeKeyMatches (t : ChannelType) : Bool :=
  handlerTypeKey t == storedTypeKey t

/-- Whether an inbound slot's lookup of the gain widget for type `t` yields
a usable widget: the list must be found under the singular key and the
element must not be a `None` placeholder. -/
def gainSlotFound (t : ChannelType) : Bool :=
  typeKeyMatches t && gainWidgetExists t

/-- Whether an inbound slot's lookup of a boolean checkbox yields a usable
widget. -/
def boolSlotFound (t : ChannelType) (c : BoolControl) : Bool :=
  typeKeyMatches t && boolWidgetExists t c

/-- Whether `on_link_received`'s lookup of the link-checkbox list yields a
usable widget. -/
def linkSlotFound (t : ChannelType) : Bool :=
  typeKeyMatches t && linkWidgetExists t

/-- Whether `update_gui_meters`' lookup `self.widgets.get(f"(type)_meter")`
finds the meter progress-bar list (stored under the plural prefix, so found
only for playback). -/
def meterListFound (t : ChannelType) : Bool :=
  typeKeyMatches t

/-- `on_meter_received`: store the received meter value in
`last_meter_values[channel_type][ch_idx]` (a plain dict write, no widget
lookup — this slot works for every channel type). -/
def on_meter_received (st : GuiState) (t : ChannelType) (i : Nat) (v : ℚ) : GuiState :=
  { st with lastMeterValues := fun t' =>
      if t' = t then assocSet (st.lastMeterValues t) i v else st.lastMeterValues t' }

/-- One meter sample pushed to a progress bar by `update_gui_meters`:
channel type, 0-based index, `float_to_slider_linear` value. -/
abbrev MeterEmission : Type := ChannelType × Nat × ℤ

/-- The samples `update_gui_meters` would push for one channel type whose
widget list was found: every pending entry with an index inside the list,
converted by `float_to_slider_linear`. -/
def meterEmitFor (st : GuiState) (t : ChannelType) : List MeterEmission :=
  ((st.lastMeterValues t).filter fun p => p.1 < numChannels t).map
    fun p => (t, p.1, float_to_slider_linear p.2)

/-- `update_gui_meters`: one 25 Hz tick.  Iterates `last_meter_values` in
insertion order (input, output, playback); for each type whose meter
widget list is found (only playback, because `input_meter`/`output_meter`
miss the plural stored keys) it pushes each pending channel's sample, and
it clears every pending set unconditionally. -/
def update_gui_meters (st : GuiState) : List MeterEmission × GuiState :=
  ((if meterListFound .input then meterEmitFor st .input else [])
     ++ (if meterListFound .output then meterEmitFor st .output else [])
     ++ (if meterListFound .playback then meterEmitFor st .playback else []),
   { st with lastMeterValues := fun _ => [] })

/-- `on_gain_received`: the slot looks up `widgets.get(f"(type)_gain")`
under the singular key (`gainSlotFound`); the list is stored under the
plural key for inputs/outputs, and playback's entries are `None`, so the
guard always fails and the slot is a no-op.  The guarded branch mirrors the
intended write (spinbox `setValue` clamps to its range). -/
def on_gain_received (st : GuiState) (t : ChannelType) (i : Nat) (value_db : ℚ) :
    GuiState :=
  if gainSlotFound t ∧ i < numChannels t then
    { st with gainValue := fun t' i' =>
        if t' = t ∧ i' = i then clampGain t value_db else st.gainValue t' i' }
  else st

/-- `on_bool_received`: the slot first unpacks
`base_type, control_type = channel_type.split('_', 1)`, but the signal
carries only the base type string (`"input"`/`"output"`, extracted in
`_handle_bool`), which contains no underscore — the unpack raises
`ValueError` before any state access.  The unreachable success branch
mirrors the intended checkbox write behind its widget lookup. -/
def on_bool_received (st : GuiState) (t : ChannelType) (c : BoolControl) (i : Nat)
    (b : Bool) : Except String GuiState :=
  if (handlerTypeKey t).toList.contains '_' then
    .ok (if boolSlotFound t c ∧ i < numChannels t then
      { st with boolValue := fun t' c' i' =>
          if t' = t ∧ c' = c ∧ i' = i then b else st.boolValue t' c' i' }
    else st)
  else .error "ValueError: not enough values to unpack (expected 2, got 1)"

/-- `_update_linked_channel_state`: looks up `f"(channel_type)_gain"` and the
boolean checkbox lists under the singular key (`typeKeyMatches`), which
misses the plural stored keys for inputs/outputs, and playback has only
`None` placeholders (`ctrlUpdatable`) — so it disables nothing.  The
guarded branch mirrors the intended enable/disable of the paired channel
`odd_ch_idx + 1`. -/
def update_linked_channel_state (st : GuiState) (t : ChannelType) (i : Nat)
    (is_linked : Bool) : GuiState :=
  { st with ctrlEnabled := fun t' c j =>
      if typeKeyMatches t ∧ t' = t ∧ j = i + 1 ∧ j < numChannels t ∧
          ctrlUpdatable t c then
        !is_linked
      else st.ctrlEnabled t' c j }

/-- `on_link_received`: the slot's guard
`if cb_list and 0 <= ch_idx < len(cb_list) and (ch_idx % 2 == 0) and
cb_list[ch_idx] is not None:` requires the link-checkbox list to be found
(it is stored under the plural key for inputs/outputs and holds `None` for
playback — `linkSlotFound`), a valid even index, and a real widget; the
guard always fails, so inbound link reports never set the checkbox and
never reach `_update_linked_channel_state`. -/
def on_link_received (st : GuiState) (t : ChannelType) (i : Nat) (v : Bool) :
    GuiState :=
  if linkSlotFound t ∧ i < numChannels t ∧ i % 2 = 0 then
    update_linked_channel_state
      { st with linkValue := fun t' i' =>
          if t' = t ∧ i' = i then v else st.linkValue t' i' }
      t i v
  else st

/-- `on_mix_send_received`: caches the reported volume in
`current_mixer_sends` unconditionally before any widget access (the mixer
tab's own widgets use consistent keys). -/
def on_mix_send_received (st : GuiState) (k : MixSendKey) (value_db : ℚ) : GuiState :=
  { st with mixerSends := fun k' =>
      if k' = k then { st.mixerSends k with volume := value_db }
      else st.mixerSends k' }

/-- `on_mix_pan_received`: caches the reported pan in `current_mixer_sends`
unconditionally, keeping the cached volume. -/
def on_mix_pan_received (st : GuiState) (k : MixSendKey) (pan_value : ℤ) : GuiState :=
  { st with mixerSends := fun k' =>
      if k' = k then { st.mixerSends k with pan := pan_value }
      else st.mixerSends k' }

/-- `on_osc_disconnected`: clear the pending meter caches and the mixer-send
cache (`defaultdict` clear restores every cell to its default); the channel
control widgets keep their values (the code only notes "Optionally reset
sliders/checkboxes to default state here"). -/
def on_osc_disconnected (st : GuiState) : GuiState :=
  { st with
    lastMeterValues := fun _ => []
    mixerSends := fun _ => mixCellDefault }

/-- Whether `connect_signals` wired the gain spinbox of `(t, i)` to
`send_gain_from_gui`: it iterates the singular keys `["input", "output"]`,
so `self.widgets['input_gain_spinbox']` is a fresh empty list and
`i < len(...)` fails — no spinbox is ever connected.  The structural
condition (list found under the singular key, index in range, enabled at
wiring time) is spelled out. -/
def gainSendConnected (t : ChannelType) (i : Nat) : Bool :=
  match t with
  | .playback => false
  | _ => typeKeyMatches t && decide (i < numChannels t) && initGainEnabled t i

/-- Whether `connect_signals` wired checkbox `(t, c, i)` to
`send_bool_from_gui`: the lookup `widgets.get(f"(type)_(control)")` under
the singular key returns `None`, so nothing is connected. -/
def boolSendConnected (t : ChannelType) (c : BoolControl) (i : Nat) : Bool :=
  match t with
  | .playback => false
  | _ => typeKeyMatches t && boolWidgetExists t c && decide (i < numChannels t)

/-- Whether `connect_signals` wired the link checkbox of `(t, i)` to
`send_link_from_gui` (only attempted for even indices): the singular-key
lookup returns `None`, so nothing is connected. -/
def linkSendConnected (t : ChannelType) (i : Nat) : Bool :=
  match t with
  | .playback => false
  | _ => typeKeyMatches t && decide (i < numChannels t) && (i % 2 == 0)

/-- `send_gain_from_gui`, were it ever invoked: it parses the sender's
object name, whose type field is the stored (plural) prefix
(`"inputs_gain_spinbox_0"`), and dispatches on `type == 'input'` /
`type == 'output'` — neither matches the plural string, so it returns
without sending. -/
def send_gain_from_gui (t : ChannelType) (chNum : Nat) (v : ℚ) : Option OscMessage :=
  if storedTypeKey t == "input" then some (.gainMsg .input chNum v)
  else if storedTypeKey t == "output" then some (.gainMsg .output chNum v)
  else none

/-- The second component of `send_bool_from_gui`'s `addr_map` entries: the
output-side address, `None` for the input-only 48V and Hi-Z controls. -/
def boolOutputAddr : BoolControl → Option ChannelType
  | .phantom => none
  | .hiz => none
  | _ => some ChannelType.output

/-- `send_bool_from_gui`, were it ever invoked: the parsed type field is the
stored (plural) prefix, so `paths[0] if type == "input" else paths[1]`
always selects the output-side address (or `None` for 48V/Hi-Z). -/
def send_bool_from_gui (t : ChannelType) (c : BoolControl) (chNum : Nat) (b : Bool) :
    Option OscMessage :=
  let osc_value : ℤ := if b then 1 else 0
  if storedTypeKey t == "input" then some (.boolMsg .input c chNum osc_value)
  else
    match boolOutputAddr c with
    | some t' => some (.boolMsg t' c chNum osc_value)
    | none => none

/-- `send_link_from_gui`, were it ever invoked: the parsed type field is the
stored (plural) prefix, so the `'input'`/`'output'` dispatch falls through
to `return` before sending or calling `_update_linked_channel_state`. -/
def send_link_from_gui (t : ChannelType) (chNum : Nat) (b : Bool) : Option OscMessage :=
  if storedTypeKey t == "input" then some (.stereoMsg .input chNum (if b then 1 else 0))
  else if storedTypeKey t == "output" then
    some (.stereoMsg .output chNum (if b then 1 else 0))
  else none

/-- The user editing the gain spinbox of channel `(t, i)`: possible only if
the widget exists and is enabled; the spinbox clamps the entered value to
its range and stores it.  A message would be emitted only if the spinbox
had been wired to `send_gain_from_gui` (`gainSendConnected`, never true),
so no gain message is ever transmitted. -/
def userSetGain (st : GuiState) (t : ChannelType) (i : Nat) (value_db : ℚ) :
    GuiState × Option OscMessage :=
  if gainWidgetExists t ∧ i < numChannels t ∧ st.ctrlEnabled t .gainC i then
    let v := clampGain t value_db
    ({ st with gainValue := fun t' i' =>
        if t' = t ∧ i' = i then v else st.gainValue t' i' },
     if gainSendConnected t i then send_gain_from_gui t (i + 1) v else none)
  else (st, none)

/-- The user toggling checkbox `(t, c, i)`: possible only if the widget
exists and is enabled; the checkbox state changes, and a message would be
emitted only if `stateChanged` had been wired (`boolSendConnected`, never
true). -/
def userSetBool (st : GuiState) (t : ChannelType) (c : BoolControl) (i : Nat)
    (b : Bool) : GuiState × Option OscMessage :=
  if boolWidgetExists t c ∧ i < numChannels t ∧ st.ctrlEnabled t (.boolC c) i then
    ({ st with boolValue := fun t' c' i' =>
        if t' = t ∧ c' = c ∧ i' = i then b else st.boolValue t' c' i' },
     if boolSendConnected t c i then send_bool_from_gui t c (i + 1) b else none)
  else (st, none)

/-- The user toggling the link checkbox of `(t, i)` (visible only on even
0-based indices): the checkbox state changes, but `stateChanged` was never
wired to `send_link_from_gui` (`linkSendConnected`, never true), so no
message is sent and `_update_linked_channel_state` is never reached — the
paired channel's controls stay enabled. -/
def userSetLink (st : GuiState) (t : ChannelType) (i : Nat) (b : Bool) :
    GuiState × Option OscMessage :=
  if linkWidgetExists t ∧ i < numChannels t ∧ i % 2 = 0 ∧
      st.ctrlEnabled t .linkC i then
    ({ st with linkValue := fun t' i' =>
        if t' = t ∧ i' = i then b else st.linkValue t' i' },
     if linkSendConnected t i then send_link_from_gui t (i + 1) b else none)
  else (st, none)

/-- `send_mix_gain_from_gui` together with the user editing the mix-send
volume spinbox of cell `k` (these widgets use consistent `mixer_*` keys and
are connected at creation): reads the cached partner pan (`.get('pan', 0)`
on the defaultdict cell), sends the combined setmix message `[volume, pan]`
on `/mix/(out)/(type)/(in)`, and caches the new volume. -/
def userSetMixGain (st : GuiState) (k : MixSendKey) (value_db : ℚ) :
    GuiState × Option OscMessage :=
  if k.outIdx < NUM_OUTPUT_CHANNELS ∧ k.srcIdx < numSourceChannels k.srcType then
    let v := clampVol value_db
    let current_pan := (st.mixerSends k).pan
    ({ st with mixerSends := fun k' =>
        if k' = k then { st.mixerSends k with volume := v }
        else st.mixerSends k' },
     some (.mixSetMsg (k.outIdx + 1) k.srcType (k.srcIdx + 1) v current_pan))
  else (st, none)

/-- `send_mix_pan_from_gui` together with the user editing the mix-send pan
spinbox of cell `k`: reads the cached partner volume
(`.get('volume', -65.0)`), sends the combined setmix message
`[volume, pan]`, and caches the new pan. -/
def userSetMixPan (st : GuiState) (k : MixSendKey) (pan_value : ℤ) :
    GuiState × Option OscMessage :=
  if k.outIdx < NUM_OUTPUT_CHANNELS ∧ k.srcIdx < numSourceChannels k.srcType then
    let p := clampPan pan_value
    let current_volume := (st.mixerSends k).volume
    ({ st with mixerSends := fun k' =>
        if k' = k then { st.mixerSends k with pan := p }
        else st.mixerSends k' },
     some (.mixSetMsg (k.outIdx + 1) k.srcType (k.srcIdx + 1) current_volume p))
  else (st, none)

/-- One `dispatcher.map` registration made by `_map_osc_addresses`, identified
by its handler and the bound (0-based) descriptor arguments. -/
inductive DispatchEntry
  | gainE (t : ChannelType) (idx0 : Nat)
  | levelE (t : ChannelType) (idx0 : Nat)
  | boolE (t : ChannelType) (c : BoolControl) (idx0 : Nat)
  | linkE (t : ChannelType) (idx0 : Nat)
  | mixE (outIdx0 : Nat) (s : SourceType) (inIdx0 : Nat) (isPan : Bool)
  deriving DecidableEq, Repr

/-- One row of `channel_configs`: which address families exist for a channel
type (`None` path entries in the Python tuples are `false` here). -/
structure ChannelCfg where
  t : ChannelType
  count : Nat
  hasGain : Bool
  hasStereo : Bool
  hasLevel : Bool
  hasMute : Bool
  hasPhase : Bool
  hasEq : Bool
  hasDyn : Bool
  hasLc : Bool
  hasPh : Bool
  hasHiz : Bool

/-- `channel_configs` row for `"input"`. -/
def inputCfg : ChannelCfg :=
  ⟨.input, NUM_INPUT_CHANNELS, true, true, true, true, true, true, true, true,
   true, true⟩

/-- `channel_configs` row for `"output"` (no 48V, no Hi-Z). -/
def outputCfg : ChannelCfg :=
  ⟨.output, NUM_OUTPUT_CHANNELS, true, true, true, true, true, true, true, true,
   false, false⟩

/-- `channel_configs` row for `"playback"` (level only). -/
def playbackCfg : ChannelCfg :=
  ⟨.playback, NUM_PLAYBACK_CHANNELS, false, false, true, false, false, false,
   false, false, false, false⟩

/-- The registrations of one `channel_configs` row: the loop body
`for i in range(1, num_ch + 1)` with `ch_idx_0_based = i - 1`, mapping each
defined path and mapping stereo only when the 1-based `i` is odd. -/
def channelEntries (cfg : ChannelCfg) : List DispatchEntry :=
  (List.range cfg.count).flatMap fun idx0 =>
    (if cfg.hasGain then [DispatchEntry.gainE cfg.t idx0] else [])
    ++ (if cfg.hasLevel then [DispatchEntry.levelE cfg.t idx0] else [])
    ++ (if cfg.hasMute then [DispatchEntry.boolE cfg.t .mute idx0] else [])
    ++ (if cfg.hasPhase then [DispatchEntry.boolE cfg.t .phase idx0] else [])
    ++ (if cfg.hasEq then [DispatchEntry.boolE cfg.t .eq_enable idx0] else [])
    ++ (if cfg.hasDyn then [DispatchEntry.boolE cfg.t .dyn_enable idx0] else [])
    ++ (if cfg.hasLc then [DispatchEntry.boolE cfg.t .lc_enable idx0] else [])
    ++ (if cfg.hasPh then [DispatchEntry.boolE cfg.t .phantom idx0] else [])
    ++ (if cfg.hasHiz then [DispatchEntry.boolE cfg.t .hiz idx0] else [])
    ++ (if cfg.hasStereo && (idx0 + 1) % 2 != 0 then [DispatchEntry.linkE cfg.t idx0]
        else [])

/-- The mixer-matrix registrations: for every 1-based output channel, source
type (input then playback) and 1-based source channel, one volume mapping and
one `/pan` mapping. -/
def mixEntries : List DispatchEntry :=
  (List.range NUM_OUTPUT_CHANNELS).flatMap fun outIdx0 =>
    ([SourceType.input, SourceType.playback]).flatMap fun s =>
      (List.range (numSourceChannels s)).flatMap fun inIdx0 =>
        [DispatchEntry.mixE outIdx0 s inIdx0 false,
         DispatchEntry.mixE outIdx0 s inIdx0 true]

/-- `_map_osc_addresses`: all dispatcher registrations, in registration
order. -/
def mapOscAddresses : List DispatchEntry :=
  channelEntries inputCfg ++ channelEntries outputCfg ++ channelEntries playbackCfg
    ++ mixEntries

/-- Check that a registration is not a stereo-link entry on an odd 0-based
index. -/
def linkEntryEven : DispatchEntry → Bool
  | .linkE _ idx0 => idx0 % 2 == 0
  | _ => true

/-- Events observable at the `OSCHandler` boundary from the server thread:
the `connected` signal and the `disconnected(reason)` signal. -/
inductive ServerEvent
  | connectedEv
  | disconnectedEv (reason : String)
  deriving DecidableEq, Repr

/-- How one execution of `_server_thread_target` ends: the
`BlockingOSCUDPServer` constructor raises (`OSError` or any other
exception), the request loop raises, or the stop event is observed. -/
inductive RunOutcome
  | bindOSError (e : String)
  | bindOtherError (e : String)
  | loopOSError (e : String)
  | loopOtherError (e : String)
  | stopObserved
  deriving DecidableEq, Repr

/-- The reason string built by the `except OSError` branch. -/
def osErrorReason (e : String) : String :=
  "Error starting server (Port in use?): " ++ e

/-- The reason string built by the generic `except Exception` branch. -/
def genericErrorReason (e : String) : String :=
  "Server error: " ++ e

/-- `_server_thread_target` as a trace of boundary events: `connected` is
emitted only once the constructor (bind) succeeded; the `finally` block
always emits exactly one `disconnected` with the captured reason (or
"Disconnected normally" when no error was captured). -/
def serverThreadTarget : RunOutcome → List ServerEvent
  | .bindOSError e => [.disconnectedEv (osErrorReason e)]
  | .bindOtherError e => [.disconnectedEv (genericErrorReason e)]
  | .loopOSError e => [.connectedEv, .disconnectedEv (osErrorReason e)]
  | .loopOtherError e => [.connectedEv, .disconnectedEv (genericErrorReason e)]
  | .stopObserved => [.connectedEv, .disconnectedEv "Disconnected normally"]

/-- Whether the run outcome is a bind failure (the loop never started). -/
def isBindFailure : RunOutcome → Bool
  | .bindOSError _ => true
  | .bindOtherError _ => true
  | _ => false

/-- Whether a boundary event is a `disconnected` notification. -/
def isDisconnectedEv : ServerEvent → Bool
  | .disconnectedEv _ => true
  | _ => false

/-- Whether a boundary event is the `connected` notification. -/
def isConnectedEv : ServerEvent → Bool
  | .connectedEv => true
  | _ => false

/-- One decoded inbound device-originated event, as forwarded by the
dispatcher handlers to the GUI slots. -/
inductive InboundEvent
  | meterMsg (t : ChannelType) (i : Nat) (v : ℚ)
  | gainMsg (t : ChannelType) (i : Nat) (v : ℚ)
  | boolMsg (t : ChannelType) (c : BoolControl) (i : Nat) (b : Bool)
  | linkMsg (t : ChannelType) (i : Nat) (b : Bool)
  | mixVolMsg (k : MixSendKey) (v : ℚ)
  | mixPanMsg (k : MixSendKey) (p : ℤ)
  deriving DecidableEq, Repr

/-- State effect of applying one inbound event: the `on_*_received` slot it
is routed to.  A slot that raises (`on_bool_received`'s ValueError) aborts
inside the Qt event loop, leaving the state unchanged. -/
def applyInboundState (st : GuiState) : InboundEvent → GuiState
  | .meterMsg t i v => on_meter_received st t i v
  | .gainMsg t i v => on_gain_received st t i v
  | .boolMsg t c i b =>
      match on_bool_received st t c i b with
      | .ok st' => st'
      | .error _ => st
  | .linkMsg t i b => on_link_received st t i b
  | .mixVolMsg k v => on_mix_send_received st k v
  | .mixPanMsg k p => on_mix_pan_received st k p

/-- Applying one inbound event: the new state together with the per-message
notifications emitted along the way (each `_handle_*` re-emits the raw
message once via `message_received_signal` before invoking the GUI slot,
also when the slot later fails). -/
def applyInbound (st : GuiState) (e : InboundEvent) : GuiState × List InboundEvent :=
  (applyInboundState st e, [e])

theorem gainSlotFound_eq_false (t : ChannelType) : gainSlotFound t = false := by
  cases t <;> rfl

theorem linkSlotFound_eq_false (t : ChannelType) : linkSlotFound t = false := by
  cases t <;> rfl

theorem on_gain_received_noop (st : GuiState) (t : ChannelType) (i : Nat) (v : ℚ) :
    on_gain_received st t i v = st := by
  unfold on_gain_received
  rw [if_neg]
  rintro ⟨hf, -⟩
  rw [gainSlotFound_eq_false] at hf
  exact absurd hf (by decide)

theorem on_link_received_noop (st : GuiState) (t : ChannelType) (i : Nat) (b : Bool) :
    on_link_received st t i b = st := by
  unfold on_link_received
  rw [if_neg]
  rintro ⟨hf, -⟩
  rw [linkSlotFound_eq_false] at hf
  exact absurd hf (by decide)

theorem on_bool_received_raises (st : GuiState) (t : ChannelType) (c : BoolControl)
    (i : Nat) (b : Bool) :
    on_bool_received st t c i b
      = .error "ValueError: not enough values to unpack (expected 2, got 1)" := by
  cases t <;> rfl

/-- C10: for every integer slider position in the configured range
(0..750 for input gain, -650..60 for output/mix volume), converting the
position to a dB value and back returns the same position. -/
theorem C10_slider_db_round_trip (v w : ℤ) (hv0 : 0 ≤ v) (hv1 : v ≤ 750)
    (hw0 : -650 ≤ w) (hw1 : w ≤ 60) :
    input_gain_to_slider (slider_to_input_gain v) = v ∧
    output_volume_to_slider (slider_to_output_volume w) = w := by
  constructor
  · unfold input_gain_to_slider slider_to_input_gain
    have h1 : (v : ℚ) / 10 ≤ 75 := by
      rw [div_le_iff₀ (by norm_num : (0:ℚ) < 10)]
      have : (v : ℚ) ≤ 750 := by exact_mod_cast hv1
      linarith
    have h2 : (0 : ℚ) ≤ (v : ℚ) / 10 :=
      div_nonneg (by exact_mod_cast hv0) (by norm_num)
    rw [min_eq_right h1, max_eq_right h2,
        div_mul_cancel₀ _ (by norm_num : (10:ℚ) ≠ 0)]
    exact pyInt_intCast v
  · unfold output_volume_to_slider slider_to_output_volume
    have h1 : (w : ℚ) / 10 ≤ 6 := by
      rw [div_le_iff₀ (by norm_num : (0:ℚ) < 10)]
      have : (w : ℚ) ≤ 60 := by exact_mod_cast hw1
      linarith
    have h2 : (-65 : ℚ) ≤ (w : ℚ) / 10 := by
      rw [le_div_iff₀ (by norm_num : (0:ℚ) < 10)]
      have : (-650 : ℚ) ≤ (w : ℚ) := by exact_mod_cast hw0
      linarith
    rw [min_eq_right h1, max_eq_right h2,
        div_mul_cancel₀ _ (by norm_num : (10:ℚ) ≠ 0)]
    exact pyInt_intCast w

theorem C10_slider_db_round_trip_witness :
    (0:ℤ) ≤ 123 ∧ (123:ℤ) ≤ 750 ∧ (-650:ℤ) ≤ -123 ∧ (-123:ℤ) ≤ 60 ∧
    input_gain_to_slider (slider_to_input_gain 123) = 123 ∧
    output_volume_to_slider (slider_to_output_volume (-123)) = -123 :=
  ⟨by norm_num, by norm_num, by norm_num, by norm_num,
   (C10_slider_db_round_trip 123 (-123) (by norm_num) (by norm_num)
     (by norm_num) (by norm_num)).1,
   (C10_slider_db_round_trip 123 (-123) (by norm_num) (by norm_num)
     (by norm_num) (by norm_num)).2⟩

/-- C6, evaluated at the claim's failing input: a user entry of 100.0 dB for
Input channel 1 (0-based 0) transmits nothing — the gain spinbox was never
wired to `send_gain_from_gui` (`connect_signals` looks up
`input_gain_spinbox` while the widgets are stored under
`inputs_gain_spinbox`, and `send_gain_from_gui` would bail on the plural
object-name prefix) — while the stored widget value is silently clamped to
75.0.  No out-of-range policy is ever exercised on a transmission, because
no gain transmission exists. -/
theorem C6_range_clamping_bug :
    (userSetGain initialState .input 0 100).2 = none ∧
    (userSetGain initialState .input 0 100).1.gainValue .input 0 = 75 := by
  exact ⟨by decide, by decide⟩

/-- C1: for a previously-untouched mix cell, an outbound volume change sends
the combined setmix message with the cached default pan 0; a subsequent pan
change for the same cell sends the combined message with the just-set
volume, not the default -65.0. -/
theorem C1_mix_cell_atomicity (st : GuiState) (k : MixSendKey) (v : ℚ) (p : ℤ)
    (hout : k.outIdx < NUM_OUTPUT_CHANNELS)
    (hin : k.srcIdx < numSourceChannels k.srcType)
    (huntouched : st.mixerSends k = mixCellDefault)
    (hv1 : -65 ≤ v) (hv2 : v ≤ 6) (hp1 : -100 ≤ p) (hp2 : p ≤ 100) :
    (userSetMixGain st k v).2
      = some (.mixSetMsg (k.outIdx + 1) k.srcType (k.srcIdx + 1) v 0) ∧
    (userSetMixPan (userSetMixGain st k v).1 k p).2
      = some (.mixSetMsg (k.outIdx + 1) k.srcType (k.srcIdx + 1) v p) := by
  have hclampv : clampVol v = v := by
    unfold clampVol
    rw [min_eq_right hv2, max_eq_right hv1]
  have hclampp : clampPan p = p := by
    unfold clampPan
    rw [min_eq_right hp2, max_eq_right hp1]
  constructor
  · unfold userSetMixGain
    rw [if_pos ⟨hout, hin⟩]
    simp only [hclampv, huntouched]
    rfl
  · unfold userSetMixGain userSetMixPan
    rw [if_pos ⟨hout, hin⟩]
    simp only [hclampv, hclampp, if_pos rfl]
    rw [if_pos ⟨hout, hin⟩]
    simp only [if_pos rfl]
    rfl

theorem C1_mix_cell_atomicity_witness :
    (userSetMixGain initialState ⟨0, .input, 0⟩ (-10)).2
      = some (.mixSetMsg 1 .input 1 (-10) 0) ∧
    (userSetMixPan (userSetMixGain initialState ⟨0, .input, 0⟩ (-10)).1
        ⟨0, .input, 0⟩ 50).2
      = some (.mixSetMsg 1 .input 1 (-10) 50) :=
  C1_mix_cell_atomicity initialState ⟨0, .input, 0⟩ (-10) 50
    (by decide) (by decide) rfl (by norm_num) (by norm_num)
    (by norm_num) (by norm_num)

/-- C4: every execution of the receive-loop thread body emits exactly one
Disconnected(reason) event on termination; a Connected event is emitted
exactly when the bind succeeded (never on bind failure), and the final
boundary event of the run is always the Disconnected notification. -/
theorem C4_exactly_one_disconnect (o : RunOutcome) :
    ((serverThreadTarget o).filter isDisconnectedEv).length = 1 ∧
    ((serverThreadTarget o).filter isConnectedEv).length
      = (if isBindFailure o then 0 else 1) ∧
    ∃ r, (serverThreadTarget o).getLast? = some (.disconnectedEv r) := by
  cases o <;> exact ⟨rfl, rfl, _, rfl⟩

set_option maxRecDepth 40000 in
/-- C5: the address table registers a stereo-link handler only for even
0-based channel indices (odd 1-based wire numbers), and an inbound link
report for an odd 0-based index is ignored by the state store (the
`ch_idx % 2 == 0` conjunct of `on_link_received`'s guard). -/
theorem C5_stereo_link_even_indices (st : GuiState) (t : ChannelType) (i : Nat)
    (v : Bool) :
    mapOscAddresses.all linkEntryEven = true ∧
    (i % 2 = 1 → on_link_received st t i v = st) := by
  constructor
  · decide
  · intro h
    unfold on_link_received
    rw [if_neg]
    rintro ⟨-, -, h0⟩
    omega

theorem C5_stereo_link_even_indices_witness :
    mapOscAddresses.all linkEntryEven = true ∧
    on_link_received initialState .input 1 true = initialState :=
  ⟨(C5_stereo_link_even_indices initialState .input 1 true).1,
   (C5_stereo_link_even_indices initialState .input 1 true).2 rfl⟩

/-- C7, evaluated at the claim's failing inputs: an inbound gain report for
(Input, 0) is dropped (`on_gain_received` finds no widget list under the
singular `input_gain` key) and an inbound mute report makes the slot raise
ValueError unpacking `"input".split('_', 1)` — neither writes the store,
contradicting "inbound device reports write the value unconditionally".
Only mix-send reports are written (cache write precedes any widget
access). -/
theorem C7_device_reports_bug :
    on_gain_received initialState .input 0 12 = initialState ∧
    on_bool_received initialState .input .mute 0 true
      = .error "ValueError: not enough values to unpack (expected 2, got 1)" ∧
    (on_mix_send_received initialState ⟨0, .input, 0⟩ 3).mixerSends ⟨0, .input, 0⟩
      = { volume := 3, pan := 0 } := by
  refine ⟨on_gain_received_noop initialState .input 0 12,
    on_bool_received_raises initialState .input .mute 0 true, by decide⟩

/-- C3 counterexample: the claim fails on the code.  A gain value entered by
the user before `disconnect()` (here 12 dB on Input channel 0 — the only
way a non-default value gets into the channel-parameter store, since
inbound gain reports are dropped by the widget-key mismatch) is still
present afterwards, instead of the default 0.0: the disconnect handler
clears only the meter cache and the mixer-send cache. -/
theorem C3_disconnect_reset_counterexample :
    (on_osc_disconnected (userSetGain initialState .input 0 12).1).gainValue
        .input 0 = 12 ∧
    initialState.gainValue .input 0 = 0 ∧ (12 : ℚ) ≠ 0 := by
  refine ⟨by decide, rfl, by norm_num⟩

/-- C3 amended: after `disconnect()` the meter cache is empty and every
mix cell is back at its default (volume -65.0, pan 0), but the channel
parameters (gain values, boolean controls, link flags) keep their
pre-disconnect values. -/
theorem C3_disconnect_reset_amended (st : GuiState) (t : ChannelType)
    (k : MixSendKey) :
    (on_osc_disconnected st).lastMeterValues t = [] ∧
    (on_osc_disconnected st).mixerSends k = mixCellDefault ∧
    (on_osc_disconnected st).gainValue = st.gainValue ∧
    (on_osc_disconnected st).boolValue = st.boolValue ∧
    (on_osc_disconnected st).linkValue = st.linkValue :=
  ⟨rfl, rfl, rfl, rfl, rfl⟩

/-- C2, evaluated at the claim's failing input: the link-exclusivity rule is
dead code.  An inbound `/input/1/stereo 1` report is a no-op
(`on_link_received` finds no list under `input_link`; the widgets are
stored under `inputs_link`), and when the user checks the link checkbox of
Input pair (0, 1) directly, the flag is set but
`_update_linked_channel_state` is never reached (the checkbox is not wired
to `send_link_from_gui`), so the follower's gain spinbox stays enabled: a
subsequent write of 5.0 dB to follower index 1 mutates the store instead of
being refused.  (No message is transmitted only because the per-channel
outbound path as a whole is unwired.) -/
theorem C2_link_exclusivity_bug :
    on_link_received initialState .input 0 true = initialState ∧
    (userSetLink initialState .input 0 true).1.linkValue .input 0 = true ∧
    (userSetLink initialState .input 0 true).1.ctrlEnabled .input .gainC 1 = true ∧
    (userSetGain (userSetLink initialState .input 0 true).1 .input 1 5).1.gainValue
        .input 1 = 5 := by
  refine ⟨on_link_received_noop initialState .input 0 true,
    by decide, by decide, by decide⟩

theorem assocSet_overwrite (l : List (Nat × ℚ)) (i : Nat) (v w : ℚ) :
    assocSet (assocSet l i v) i w = assocSet l i w := by
  induction l with
  | nil => simp [assocSet]
  | cons hd tl ih =>
    obtain ⟨j, x⟩ := hd
    by_cases hj : j = i
    · subst hj
      simp [assocSet]
    · simp [assocSet, hj, ih]

theorem on_meter_received_overwrite (st : GuiState) (t : ChannelType) (i : Nat)
    (v w : ℚ) :
    on_meter_received (on_meter_received st t i v) t i w
      = on_meter_received st t i w := by
  unfold on_meter_received
  ext t' j q
  all_goals simp only
  by_cases ht : t' = t
  · simp [ht, assocSet_overwrite]
  · simp [ht]

theorem on_mix_send_received_idem (st : GuiState) (k : MixSendKey) (v : ℚ) :
    on_mix_send_received (on_mix_send_received st k v) k v
      = on_mix_send_received st k v := by
  unfold on_mix_send_received
  ext k'
  all_goals simp only
  by_cases hk : k' = k
  · simp [hk]
  · simp [hk]

theorem on_mix_pan_received_idem (st : GuiState) (k : MixSendKey) (p : ℤ) :
    on_mix_pan_received (on_mix_pan_received st k p) k p
      = on_mix_pan_received st k p := by
  unfold on_mix_pan_received
  ext k'
  all_goals simp only
  by_cases hk : k' = k
  · simp [hk]
  · simp [hk]

/-- C9: applying the same inbound (descriptor, value) event twice leaves the
state store exactly as applying it once, while each of the two applications
emits its own raw-message notification (two in total): state is
deduplicated, notification is not.  Meter and mix-send events are genuine
idempotent overwrites; gain, boolean and link events never reach the store
in this program (widget-key mismatch / ValueError), so their state effect
is idempotent trivially. -/
theorem C9_inbound_idempotence (st : GuiState) (e : InboundEvent) :
    (applyInbound (applyInbound st e).1 e).1 = (applyInbound st e).1 ∧
    (applyInbound st e).2.length + (applyInbound (applyInbound st e).1 e).2.length
      = 2 := by
  constructor
  · cases e with
    | meterMsg t i v => exact on_meter_received_overwrite st t i v v
    | gainMsg t i v =>
        simp [applyInbound, applyInboundState, on_gain_received_noop]
    | boolMsg t c i b =>
        simp [applyInbound, applyInboundState, on_bool_received_raises]
    | linkMsg t i b =>
        simp [applyInbound, applyInboundState, on_link_received_noop]
    | mixVolMsg k v => exact on_mix_send_received_idem st k v
    | mixPanMsg k p => exact on_mix_pan_received_idem st k p
  · rfl

/-- C8, evaluated at the claim's failing input: a pending meter report for
Input channel 0 emits nothing on the tick (`update_gui_meters` looks up
`input_meter` while the progress bars are stored under `inputs_meter`), even
though its pending set is cleared; a pending playback report does emit its
one converted sample (that key is singular on both sides).  The
between-tick overwrite (last-value-wins) does hold. -/
theorem C8_meter_aggregation_bug :
    (update_gui_meters (on_meter_received initialState .input 0 1)).1 = [] ∧
    (update_gui_meters (on_meter_received initialState .playback 0 1)).1
      = [(.playback, 0, float_to_slider_linear 1)] ∧
    float_to_slider_linear 1 = 100 ∧
    (update_gui_meters (on_meter_received initialState .input 0 1)).2.lastMeterValues
        .input = [] ∧
    on_meter_received (on_meter_received initialState .input 0 1) .input 0 2
      = on_meter_received initialState .input 0 2 := by
  refine ⟨by decide, rfl, ?_, rfl,
    on_meter_received_overwrite initialState .input 0 1 2⟩
  norm_num [float_to_slider_linear, pyInt]
